import Mathlib

/-!
Verification of the artdig metadata-normalization layer.

This file gives a shallow embedding of the two converters of the
hayeah/artdig repository that the specification describes:

* `src/artdig/getty_linked_art.py` — the Linked Art (JSON-LD) converter
  (`convert`, `GettyObject.to_dict`, `_extract_title`, `_extract_artists`,
  `_extract_dimensions`, `_extract_identifiers`), and
* `src/artdig/rijks/lido.py` — the LIDO XML converter
  (`_text`, `_aat_uri`, `_to_cm`, `_parse_year`, `LIDORecord` with its
  memoized `_find_creation_event`, `creator`, `date_range`,
  `_materials_and_techniques`, `all_dimensions`, `primary_dimensions_cm`).

Modelling conventions, used consistently below:

* Python strings are Lean `String`s, but every operation on them is
  re-implemented by structural recursion over `String.data` (the character
  list), so that all definitions reduce in the kernel.  Python `len`,
  slicing and iteration are all character-based, matching `List Char`.
  `str.lower`/`str.strip` are modelled with `Char.toLower` and
  `Char.isWhitespace`, which agree with Python on the ASCII data these
  converters handle.
* JSON documents are values of the `Json` inductive; XML trees are values
  of `XElem`.  A Python `dict.get(k, default)` on an absent key is the
  `Option`-returning lookup with the code's default.  Documents are
  assumed well-typed at the fields the code accesses (a field holding,
  say, a number where the code immediately calls a string method would
  raise `AttributeError`/`TypeError` in Python; such ill-typed documents
  are outside the modelled domain — the specification's "structurally
  incomplete" inputs, absent keys and empty collections, are fully inside
  it).
* Python floats are modelled as `Rat`.  The only arithmetic the code
  performs is division by 10, which is exact.
* Python truthiness on optional strings (`None` and `""` falsy) and on
  optional floats (`None` and `0.0` falsy) is modelled explicitly by
  `truthyS` / `pyOrS` / `pyOrQ`.
-/

/-! ## Character-list string primitives (Python `str` operations) -/

/-- Python `s.strip()` on the character list: drop whitespace at both ends. -/
def trimL (cs : List Char) : List Char :=
  ((cs.dropWhile Char.isWhitespace).reverse.dropWhile Char.isWhitespace).reverse

/-- Python `s.strip()`. -/
def pyStrip (s : String) : String := String.mk (trimL s.data)

/-- Python `s.lower()` (ASCII case folding, as in the data handled here). -/
def pyLower (s : String) : String := String.mk (s.data.map Char.toLower)

/-- `isPrefixL p cs` is true when `p` is a prefix of `cs` (Python `startswith`). -/
def isPrefixL : List Char → List Char → Bool
  | [], _ => true
  | _ :: _, [] => false
  | p :: ps, c :: cs => p = c && isPrefixL ps cs

/-- Python `s.startswith(p)`. -/
def pyStartsWith (s p : String) : Bool := isPrefixL p.data s.data

/-- `hasSubL hay pat`: `pat` occurs as a contiguous substring (Python `pat in hay`). -/
def hasSubL (hay pat : List Char) : Bool :=
  isPrefixL pat hay ||
    match hay with
    | [] => false
    | _ :: t => hasSubL t pat

/-- Python `pat in s` (substring containment). -/
def hasSubS (s pat : String) : Bool := hasSubL s.data pat.data

/-- Python `s[n:]` — drop the first `n` characters. -/
def pyDrop (s : String) (n : Nat) : String := String.mk (s.data.drop n)

/-- Python `s.rstrip("/")`. -/
def rstripSlash (s : String) : String :=
  String.mk ((s.data.reverse.dropWhile (fun c => c = '/')).reverse)

/-- `isSuffixL p cs`: `p` is a suffix of `cs`. -/
def isSuffixL (p cs : List Char) : Bool := isPrefixL p.reverse cs.reverse

/-- Scan for Python `split`: accumulate the current chunk; whenever it ends
with the (non-empty) separator, close the chunk.  Leftmost, non-overlapping
matches — exactly Python's `str.split`. -/
def splitGo (sep : List Char) : List Char → List Char → List (List Char) → List (List Char)
  | [], cur, chunks => chunks ++ [cur]
  | c :: rest, cur, chunks =>
    let cur' := cur ++ [c]
    if sep ≠ [] ∧ isSuffixL sep cur' = true then
      splitGo sep rest [] (chunks ++ [cur'.take (cur'.length - sep.length)])
    else
      splitGo sep rest cur' chunks

/-- Python `s.split(sep)` for a non-empty separator, on character lists. -/
def splitOnL (sep cs : List Char) : List (List Char) := splitGo sep cs [] []

/-- Python `s.split(sep)`. -/
def pySplit (s sep : String) : List String :=
  (splitOnL sep.data s.data).map String.mk

/-- Scan for Python `replace`: `done` is the already-rewritten output, `cur`
the raw characters since the last replacement; whenever `cur` ends with the
(non-empty) pattern, flush it with the replacement.  Leftmost,
non-overlapping — exactly Python's `str.replace`. -/
def replaceGo (pat rep : List Char) : List Char → List Char → List Char → List Char
  | [], cur, done => done ++ cur
  | c :: rest, cur, done =>
    let cur' := cur ++ [c]
    if pat ≠ [] ∧ isSuffixL pat cur' = true then
      replaceGo pat rep rest [] (done ++ cur'.take (cur'.length - pat.length) ++ rep)
    else
      replaceGo pat rep rest cur' done

/-- Python `s.replace(pat, rep)` (all occurrences, left to right). -/
def replaceL (pat rep cs : List Char) : List Char := replaceGo pat rep cs [] []

/-- Python `s.replace(pat, rep)`. -/
def pyReplace (s pat rep : String) : String :=
  String.mk (replaceL pat.data rep.data s.data)

/-- Python string `<=` (lexicographic by code point), as a boolean. -/
def lexLe : List Char → List Char → Bool
  | [], _ => true
  | _ :: _, [] => false
  | x :: xs, y :: ys => if x = y then lexLe xs ys else decide (x < y)

/-- Python truthiness of an optional string: `None` and `""` are falsy. -/
def truthyS : Option String → Bool
  | none => false
  | some s => !(s = "")

/-- Python `a or b` on optional strings (returns `b` whenever `a` is falsy). -/
def pyOrS (a b : Option String) : Option String :=
  if truthyS a then a else b

/-- Python `a or b` on optional floats: `None` and `0.0` are falsy. -/
def pyOrQ (a b : Option Rat) : Option Rat :=
  match a with
  | none => b
  | some v => if v = 0 then b else a

/-- First-match association lookup (Python `dict` read). -/
def assocFind {α : Type} : List (String × α) → String → Option α
  | [], _ => none
  | (k, v) :: rest, key => if k = key then some v else assocFind rest key

/-- Python `dict` assignment `m[k] = v`: replace in place, else append. -/
def upsert {α : Type} : List (String × α) → String → α → List (String × α)
  | [], k, v => [(k, v)]
  | (k', v') :: rest, k, v =>
    if k' = k then (k, v) :: rest else (k', v') :: upsert rest k v

/-- Insert into a lexicographically sorted list of strings. -/
def insertSorted (x : String) : List String → List String
  | [] => [x]
  | y :: ys => if lexLe x.data y.data then x :: y :: ys else y :: insertSorted x ys

/-- Python `sorted(xs)` for strings. -/
def sortNames (xs : List String) : List String := xs.foldr insertSorted []

/-! ## JSON documents (Linked Art input) -/

/-- A JSON value, as delivered by `json.loads` to the Linked Art converter. -/
inductive Json where
  | null : Json
  | bool : Bool → Json
  | num : Rat → Json
  | str : String → Json
  | arr : List Json → Json
  | obj : List (String × Json) → Json
deriving Repr

/-- First-match key lookup on a JSON object; `none` on absent keys or non-objects. -/
def Json.lookup : Json → String → Option Json
  | .obj fs, key => assocFind fs key
  | _, _ => none

/-- `d.get(k)` when the code expects a string value. -/
def Json.getStr? (j : Json) (key : String) : Option String :=
  match j.lookup key with
  | some (.str s) => some s
  | _ => none

/-- `d.get(k, dflt)` when the code expects a string value. -/
def Json.getStrD (j : Json) (key dflt : String) : String :=
  (j.getStr? key).getD dflt

/-- `d.get(k, [])` when the code expects a list value. -/
def Json.getArr (j : Json) (key : String) : List Json :=
  match j.lookup key with
  | some (.arr xs) => xs
  | _ => []

/-- `d.get(k, dict())` when the code expects a dict value. -/
def Json.getObjD (j : Json) (key : String) : Json :=
  match j.lookup key with
  | some (.obj fs) => .obj fs
  | _ => .obj []

/-- `d.get(k)` when the code expects a numeric value. -/
def Json.getNum? (j : Json) (key : String) : Option Rat :=
  match j.lookup key with
  | some (.num q) => some q
  | _ => none

/-! ## Getty Linked Art converter — vocabulary constants
(`src/artdig/getty_linked_art.py` lines 9–40) -/

def AAT_PREFERRED_TERM : String := "http://vocab.getty.edu/aat/300404670"
def AAT_PRIMARY_TITLE : String := "https://data.getty.edu/local/thesaurus/object-title-primary"
def AAT_ACCESSION_NUMBER : String := "http://vocab.getty.edu/aat/300312355"
def AAT_DESCRIPTION : String := "http://vocab.getty.edu/aat/300080091"
def AAT_MATERIALS : String := "http://vocab.getty.edu/aat/300435429"
def AAT_CREDIT_LINE : String := "http://vocab.getty.edu/aat/300435418"
def AAT_COPYRIGHT : String := "http://vocab.getty.edu/aat/300435434"
def AAT_CULTURE : String := "http://vocab.getty.edu/aat/300055768"
def AAT_OBJECT_TYPE : String := "http://vocab.getty.edu/aat/300435443"
def AAT_PLACE_CREATED : String := "http://vocab.getty.edu/aat/300435448"
def AAT_DIMENSIONS_DESC : String := "http://vocab.getty.edu/aat/300435430"
def AAT_INSCRIPTION : String := "http://vocab.getty.edu/aat/300435414"
def AAT_SIGNATURE : String := "http://vocab.getty.edu/aat/300028705"
def AAT_HEIGHT : String := "http://vocab.getty.edu/aat/300055644"
def AAT_WIDTH : String := "http://vocab.getty.edu/aat/300055647"
def AAT_CLASSIFICATION_CATEGORY : String := "http://vocab.getty.edu/aat/300435444"
def AAT_CC0 : String := "http://creativecommons.org/publicdomain/zero/1.0/"

def LOCAL_DOR_ID : String := "https://data.getty.edu/local/thesaurus/dor-id"
def LOCAL_TMS_ID : String := "https://data.getty.edu/local/thesaurus/tms-id"
def LOCAL_SLUG : String := "https://data.getty.edu/local/thesaurus/slug-identifier"
def LOCAL_PRODUCER_DESC : String := "https://data.getty.edu/local/thesaurus/producer-description"
def LOCAL_PRODUCER_NAME : String := "https://data.getty.edu/local/thesaurus/producer-name"
def LOCAL_PRODUCER_NAT_DATES : String := "https://data.getty.edu/local/thesaurus/nationality-and-dates"
def LOCAL_PRODUCER_ROLE : String := "https://data.getty.edu/local/thesaurus/producer-role-statement"
def LOCAL_IIIF_MANIFEST : String := "https://data.getty.edu/local/thesaurus/iiif-manifest"
def LOCAL_RIGHTS_STATEMENT : String := "https://data.getty.edu/local/thesaurus/rights-statement"

/-- `OBJECT_PREFIX` of the source (line 40): the known object-URI stem. -/
def OBJ_URI_STEM : String := "https://data.getty.edu/museum/collection/object/"

/-! ## Getty Linked Art converter — helpers (source lines 48–86) -/

/-- `_has_class(item, aat_id)`: the node is `classified_as` the AAT URI, directly
or one level inside a classification's own `classified_as`. -/
def has_class (item : Json) (aat_id : String) : Bool :=
  (item.getArr "classified_as").any (fun cls =>
    cls.getStr? "id" == some aat_id ||
      (cls.getArr "classified_as").any (fun inner => inner.getStr? "id" == some aat_id))

/-- `_find_by_class(items, aat_id)`: first item with the classification. -/
def find_by_class (items : List Json) (aat_id : String) : Option Json :=
  items.find? (fun item => has_class item aat_id)

/-- `_find_all_by_class(items, aat_id)`. -/
def find_all_by_class (items : List Json) (aat_id : String) : List Json :=
  items.filter (fun item => has_class item aat_id)

/-- `_content(item)`: the trimmed `content` string if it is a non-blank string,
else `None` (non-string and blank-after-strip values both yield `None`). -/
def content? (item : Option Json) : Option String :=
  match item with
  | none => none
  | some j =>
    match j.lookup "content" with
    | some (.str v) => let t := pyStrip v; if t = "" then none else some t
    | _ => none

/-! ## Getty Linked Art converter — data classes (source lines 94–159) -/

/-- The `Artist` dataclass. -/
structure Artist where
  name : Option String := none
  role : Option String := none
  nationality_and_dates : Option String := none
  description : Option String := none
  id : Option String := none
deriving DecidableEq, Repr

/-- The `Dimensions` dataclass. -/
structure Dimensions where
  height : Option Rat := none
  width : Option Rat := none
  unit : Option String := none
  display : Option String := none
deriving DecidableEq, Repr

/-- The `GettyObject` dataclass (fields in Python declaration order). -/
structure GettyObject where
  id : Option String := none
  title : Option String := none
  accession_number : Option String := none
  classifications : List String := []
  object_type : Option String := none
  medium : Option String := none
  date : Option String := none
  date_begin : Option String := none
  date_end : Option String := none
  culture : Option String := none
  place_created : Option String := none
  description : Option String := none
  dimensions : List (String × Dimensions) := []
  artists : List Artist := []
  copyright : Option String := none
  rights : Option String := none
  credit_line : Option String := none
  department : Option String := none
  current_location : Option String := none
  inscriptions : List String := []
  signatures : List String := []
  homepage : Option String := none
  image_url : Option String := none
  iiif_manifest : Option String := none
  is_public_domain : Bool := false
  identifiers : List (String × String) := []
deriving DecidableEq, Repr

/-- One `to_dict` entry for an optional string field (`None` is omitted). -/
def optS (k : String) (v : Option String) : List (String × Json) :=
  match v with
  | none => []
  | some s => [(k, .str s)]

/-- One `to_dict` entry for a string-list field (`[]` is omitted). -/
def optL (k : String) (vs : List String) : List (String × Json) :=
  if vs = [] then [] else [(k, .arr (vs.map .str))]

/-- One `Artist.to_dict`/`Dimensions.to_dict` entry for an optional number. -/
def optQ (k : String) (v : Option Rat) : List (String × Json) :=
  match v with
  | none => []
  | some q => [(k, .num q)]

/-- `Artist.to_dict`: keep the non-`None` fields, in field order. -/
def Artist.to_dict (a : Artist) : Json :=
  .obj (optS "name" a.name ++ optS "role" a.role ++
    optS "nationality_and_dates" a.nationality_and_dates ++
    optS "description" a.description ++ optS "id" a.id)

/-- `Dimensions.to_dict`: keep the non-`None` fields, in field order. -/
def Dimensions.to_dict (d : Dimensions) : Json :=
  .obj (optQ "height" d.height ++ optQ "width" d.width ++
    optS "unit" d.unit ++ optS "display" d.display)

/-- `GettyObject.to_dict` (source lines 148–159): skip values that are `None`,
`[]` or an empty dict; serialize `dimensions` and `artists` via the nested
`to_dict`s; everything else (including `is_public_domain`, a `bool`, and empty
strings, which the filter does not catch) is emitted as is. -/
def GettyObject.to_dict (o : GettyObject) : List (String × Json) :=
  optS "id" o.id ++ optS "title" o.title ++
  optS "accession_number" o.accession_number ++
  optL "classifications" o.classifications ++
  optS "object_type" o.object_type ++ optS "medium" o.medium ++
  optS "date" o.date ++ optS "date_begin" o.date_begin ++
  optS "date_end" o.date_end ++ optS "culture" o.culture ++
  optS "place_created" o.place_created ++ optS "description" o.description ++
  (if o.dimensions = [] then []
   else [("dimensions", Json.obj (o.dimensions.map (fun p => (p.1, p.2.to_dict))))]) ++
  (if o.artists = [] then []
   else [("artists", Json.arr (o.artists.map Artist.to_dict))]) ++
  optS "copyright" o.copyright ++ optS "rights" o.rights ++
  optS "credit_line" o.credit_line ++ optS "department" o.department ++
  optS "current_location" o.current_location ++
  optL "inscriptions" o.inscriptions ++ optL "signatures" o.signatures ++
  optS "homepage" o.homepage ++ optS "image_url" o.image_url ++
  optS "iiif_manifest" o.iiif_manifest ++
  [("is_public_domain", Json.bool o.is_public_domain)] ++
  (if o.identifiers = [] then []
   else [("identifiers", Json.obj (o.identifiers.map (fun p => (p.1, Json.str p.2))))])

/-! ## Getty Linked Art converter — field extraction (source lines 289–442) -/

/-- Loop body of `_extract_title`: scan `identified_by`, remembering the first
usable Name content; stop at the first entry classified as preferred term or
primary title.  Returns `(preferred, first_name)`. -/
def extract_title_scan : List Json → Option String → Option String × Option String
  | [], first => (none, first)
  | e :: es, first =>
    if e.getStr? "type" ≠ some "Name" then extract_title_scan es first
    else
      match content? (some e) with
      | none => extract_title_scan es first
      | some c =>
        let first' := if first = none then some c else first
        if has_class e AAT_PREFERRED_TERM || has_class e AAT_PRIMARY_TITLE then
          (some c, first')
        else extract_title_scan es first'

/-- `_extract_title(identified_by, fallback)` (source lines 289–304):
`preferred or first_name or fallback` with Python truthiness. -/
def extract_title (identified_by : List Json) (fallback : Option String) : Option String :=
  let p := extract_title_scan identified_by none
  pyOrS p.1 (pyOrS p.2 fallback)

/-- Accumulated per-set measurements (the inner dict of `sets`). Python writes
`sets[name]["height"] = dim.get("value")`, so an absent `value` and a present
`None` both read back as `None`; both are `none` here. -/
structure MeasAcc where
  unit : Option String := none
  height : Option Rat := none
  width : Option Rat := none
deriving DecidableEq, Repr

/-- The `member_of` loop of `_extract_dimensions` (lines 319–333): map a
membership label to a measurement-set name, last assignment winning. -/
def setNameOfMembers (members : List Json) : String :=
  members.foldl
    (fun acc member =>
      let label := member.getStrD "_label" ""
      if hasSubS label "Image" then "image"
      else if hasSubS label "Sheet" then "sheet"
      else if hasSubS label "Overall" then "overall"
      else if hasSubS label "Mount" then "mount"
      else
        let parts := pyStrip (pyReplace label "Dimensions Set:" "")
        if parts = "" then acc else pyLower parts)
    "default"

/-- The structured-measurement loop of `_extract_dimensions` (lines 314–347):
build the `sets` dict keyed by measurement-set name. -/
def dimensionSets (dimension_items : List Json) : List (String × MeasAcc) :=
  dimension_items.foldl
    (fun sets dim =>
      if has_class dim AAT_HEIGHT || has_class dim AAT_WIDTH then
        let set_name := setNameOfMembers (dim.getArr "member_of")
        let cur := (assocFind sets set_name).getD {}
        let unit_label := (dim.getObjD "unit").getStrD "_label" ""
        let cur :=
          if hasSubS unit_label "Centimeters" then { cur with unit := some "cm" }
          else if unit_label ≠ "" then { cur with unit := some unit_label }
          else cur
        let cur :=
          if has_class dim AAT_HEIGHT then { cur with height := dim.getNum? "value" }
          else { cur with width := dim.getNum? "value" }
        upsert sets set_name cur
      else sets)
    []

/-- The display-string loop of `_extract_dimensions` (lines 349–368): map each
dimensions-description in `referred_to_by` to the set named by its
`assigned_by`/`technique` labels (no free-form fallback here). -/
def displayStrings (referred_to_by : List Json) : List (String × String) :=
  (find_all_by_class referred_to_by AAT_DIMENSIONS_DESC).foldl
    (fun acc ref =>
      match content? (some ref) with
      | none => acc
      | some c =>
        let set_name :=
          (ref.getArr "assigned_by").foldl
            (fun sn assignment =>
              (assignment.getArr "technique").foldl
                (fun sn tech =>
                  let label := tech.getStrD "_label" ""
                  if hasSubS label "Image" then "image"
                  else if hasSubS label "Sheet" then "sheet"
                  else if hasSubS label "Overall" then "overall"
                  else if hasSubS label "Mount" then "mount"
                  else sn)
                sn)
            "default"
        upsert acc set_name c)
    []

/-- `_extract_dimensions` (lines 307–380): union of structured-set names and
display-string names, sorted; each becomes a `Dimensions` record. -/
def extract_dimensions (dimension_items referred_to_by : List Json) :
    List (String × Dimensions) :=
  let sets := dimensionSets dimension_items
  let displays := displayStrings referred_to_by
  let names := sortNames ((sets.map Prod.fst ++ displays.map Prod.fst).eraseDups)
  names.map (fun name =>
    let vals := (assocFind sets name).getD {}
    (name, { height := vals.height, width := vals.width, unit := vals.unit,
             display := assocFind displays name }))

/-- The `carried_out_by` loop of `_extract_artists` (lines 389–401): one
`Artist` per listed person. -/
def baseArtists (carried_out_by : List Json) : List Artist :=
  carried_out_by.map (fun person =>
    let name := person.getStr? "_label"
    let pid := person.getStrD "id" ""
    let aid := if hasSubS pid "/person/" then some ((pySplit pid "/person/").getLastD "")
               else none
    let role := (person.getArr "referred_to_by").foldl
      (fun acc ref => if has_class ref LOCAL_PRODUCER_ROLE then content? (some ref) else acc)
      none
    { name := name, role := role, id := aid })

/-- Production-level fallback producer name (from `referred_to_by`). -/
def producerNameRef (produced_by : Json) : Option String :=
  content? (find_by_class (produced_by.getArr "referred_to_by") LOCAL_PRODUCER_NAME)

/-- Production-level fallback producer description. -/
def producerDescRef (produced_by : Json) : Option String :=
  content? (find_by_class (produced_by.getArr "referred_to_by") LOCAL_PRODUCER_DESC)

/-- Production-level fallback nationality-and-dates. -/
def producerNatRef (produced_by : Json) : Option String :=
  content? (find_by_class (produced_by.getArr "referred_to_by") LOCAL_PRODUCER_NAT_DATES)

/-- `_extract_artists` (lines 383–421), returning the artists list: attach the
production-level description/nationality to the first listed artist (and the
fallback name only when that artist has no truthy name); with no listed
artists, synthesize one artist when the fallback name or description is
present (`elif name_from_ref or desc_from_ref`). -/
def extract_artists (produced_by : Json) : List Artist :=
  let base := baseArtists (produced_by.getArr "carried_out_by")
  let name_ref := producerNameRef produced_by
  let desc_ref := producerDescRef produced_by
  let nat_ref := producerNatRef produced_by
  match base with
  | a0 :: rest =>
    { a0 with
      description := desc_ref,
      nationality_and_dates := nat_ref,
      name := if !truthyS a0.name && name_ref.isSome then name_ref else a0.name } :: rest
  | [] =>
    if name_ref.isSome || desc_ref.isSome then
      [{ name := name_ref, description := desc_ref, nationality_and_dates := nat_ref }]
    else []

/-- `_extract_identifiers` (lines 424–442): first matching known identifier
class wins per entry (DOR, TMS, slug in the mapping's insertion order); the
slug content is reduced to its last path segment when it carries the known
URN stem. -/
def extract_identifiers (identified_by : List Json) : List (String × String) :=
  identified_by.foldl
    (fun acc entry =>
      match content? (some entry) with
      | none => acc
      | some c =>
        if has_class entry LOCAL_DOR_ID then upsert acc "dor_id" c
        else if has_class entry LOCAL_TMS_ID then upsert acc "tms_id" c
        else if has_class entry LOCAL_SLUG then
          upsert acc "slug"
            (if pyStartsWith c "urn:getty-local:idm:object:slug/" then
              (pySplit c "/").getLastD "" else c)
        else acc)
    []

/-- The id computation of `convert` (lines 171–176): strip the known URI stem,
else fall back to the last path segment of the (slash-right-stripped) id; an
empty id yields `None`. -/
def stripObjectId (obj_id : String) : Option String :=
  if pyStartsWith obj_id OBJ_URI_STEM then some (pyDrop obj_id OBJ_URI_STEM.length)
  else if obj_id ≠ "" then some ((pySplit (rstripSlash obj_id) "/").getLastD "")
  else none

/-- The description loop of `convert` (lines 206–213): first markdown-format
description wins outright; otherwise the first usable content wins. -/
def scanDescriptions : List Json → Option String → Option String
  | [], acc => acc
  | d :: ds, acc =>
    match content? (some d) with
    | none => scanDescriptions ds acc
    | some c =>
      if d.getStrD "format" "" = "text/markdown" then some c
      else scanDescriptions ds (if acc = none then some c else acc)

/-- First non-`None` `_content` of a list (the repeated `for …: if content: break`
idiom of `convert`). -/
def firstContent (items : List Json) : Option String :=
  items.findSome? (fun i => content? (some i))

/-- The `subject_of` loop of `convert` (lines 258–263): later matches overwrite. -/
def scanSubjectOf (items : List Json) : Option String × Option String :=
  items.foldl
    (fun (acc : Option String × Option String) item =>
      let item_id := item.getStrD "id" ""
      if hasSubS item_id "getty.edu/art/collection/object/" then (some item_id, acc.2)
      else if has_class item LOCAL_IIIF_MANIFEST then (acc.1, some item_id)
      else acc)
    (none, none)

/-- The `subject_to` loop of `convert` (lines 271–281): CC0 classification sets
the public-domain flag; a rights-statement classification replaces the rights
text by the entry's first usable `referred_to_by` content (kept unchanged when
no content is found). -/
def scanSubjectTo (items : List Json) : Bool × Option String :=
  items.foldl
    (fun (acc : Bool × Option String) right =>
      let pd := acc.1 || has_class right AAT_CC0
      let rights :=
        if (right.getArr "classified_as").any
            (fun cls => cls.getStr? "id" == some LOCAL_RIGHTS_STATEMENT) then
          match firstContent (right.getArr "referred_to_by") with
          | some c => some c
          | none => acc.2
        else acc.2
      (pd, rights))
    (false, none)

/-- `convert(raw)` (source lines 167–286), the object construction.  Every
access in the Python body is a defaulting `.get`, so the construction is
total on (well-typed) documents. -/
def convertObj (raw : Json) : GettyObject :=
  let identified_by := raw.getArr "identified_by"
  let referred_to_by := raw.getArr "referred_to_by"
  let carries := raw.getArr "carries"
  let produced_by := raw.getObjD "produced_by"
  let timespan := produced_by.getObjD "timespan"
  let urls := scanSubjectOf (raw.getArr "subject_of")
  let rights := scanSubjectTo (raw.getArr "subject_to")
  { id := stripObjectId (raw.getStrD "id" ""),
    title := extract_title identified_by (raw.getStr? "_label"),
    accession_number := content? (find_by_class identified_by AAT_ACCESSION_NUMBER),
    classifications := (raw.getArr "classified_as").filterMap (fun cls =>
      if has_class cls AAT_CLASSIFICATION_CATEGORY then
        match cls.getStr? "_label" with
        | some l => if l = "" then none else some l
        | none => none
      else none),
    object_type := content? (find_by_class referred_to_by AAT_OBJECT_TYPE),
    medium := content? (find_by_class referred_to_by AAT_MATERIALS),
    culture := content? (find_by_class referred_to_by AAT_CULTURE),
    place_created := content? (find_by_class referred_to_by AAT_PLACE_CREATED),
    copyright := content? (find_by_class referred_to_by AAT_COPYRIGHT),
    credit_line := content? (find_by_class referred_to_by AAT_CREDIT_LINE),
    description := scanDescriptions (find_all_by_class referred_to_by AAT_DESCRIPTION) none,
    inscriptions := (find_all_by_class carries AAT_INSCRIPTION).filterMap
      (fun i => content? (some i)),
    signatures := (find_all_by_class carries AAT_SIGNATURE).filterMap
      (fun i => content? (some i)),
    dimensions := extract_dimensions (raw.getArr "dimension") referred_to_by,
    artists := extract_artists produced_by,
    date := firstContent (timespan.getArr "identified_by"),
    date_begin := timespan.getStr? "begin_of_the_begin",
    date_end := timespan.getStr? "end_of_the_end",
    department := (raw.getArr "current_keeper").findSome? (fun keeper =>
      match keeper.getStr? "_label" with
      | some l => if l = "" then none else some l
      | none => none),
    current_location :=
      match raw.lookup "current_location" with
      | some (Json.obj fs) => firstContent ((Json.obj fs).getArr "identified_by")
      | _ => none,
    homepage := urls.1,
    iiif_manifest := urls.2,
    image_url :=
      match raw.getArr "representation" with
      | [] => none
      | r :: _ =>
        match r with
        | Json.obj _ => r.getStr? "id"
        | _ => none,
    is_public_domain := rights.1,
    rights := rights.2,
    identifiers := extract_identifiers identified_by }

/-- `convert(raw)`.  The Python function could in principle raise, so its
faithful codomain is `Except`; its body, however, contains no `raise`
statement and reads every nested field with a defaulting `.get`, so the
translation returns `.ok` on every (well-typed) input — in particular an
absent or empty top-level `id` just yields `id = None`. -/
def convert (raw : Json) : Except String GettyObject :=
  .ok (convertObj raw)

/-! ## XML documents (LIDO input, `xml.etree.ElementTree` view) -/

/-- An XML element: tag (namespace-qualified, in ElementTree's brace form),
attributes, direct text, children in document order. -/
inductive XElem where
  | node : String → List (String × String) → Option String → List XElem → XElem
deriving Repr

def XElem.tag : XElem → String
  | .node t _ _ _ => t

def XElem.attrs : XElem → List (String × String)
  | .node _ a _ _ => a

def XElem.text : XElem → Option String
  | .node _ _ t _ => t

def XElem.children : XElem → List XElem
  | .node _ _ _ c => c

/-- `el.get(name)` — attribute lookup. -/
def XElem.attr (e : XElem) (name : String) : Option String :=
  assocFind e.attrs name

/-- Direct children with the given tag, in document order. -/
def childrenTagged (e : XElem) (t : String) : List XElem :=
  e.children.filter (fun c => c.tag = t)

/-- `el.findall(path)` for a `/`-separated path, as a list of path segments:
all elements reached by the path, in document order. -/
def findallPath (e : XElem) : List String → List XElem
  | [] => [e]
  | t :: ts => (childrenTagged e t).foldr (fun c acc => findallPath c ts ++ acc) []

/-- `el.find(path)`: the first element reached by the path, in document order. -/
def findPath (e : XElem) (p : List String) : Option XElem :=
  (findallPath e p).head?

/-- The LIDO namespace of the source (`LIDO_NS`). -/
def LIDO_NS : String := "http://www.lido-schema.org"

/-- `f"{L}name"`: qualify a local name with the LIDO namespace, in
ElementTree's brace notation (the `lido:` path form resolves to the same). -/
def lq (name : String) : String := "\x7b" ++ LIDO_NS ++ "\x7d" ++ name

/-- The `xml:lang` attribute key (`XML_LANG` in the source). -/
def XML_LANG : String := "\x7bhttp://www.w3.org/XML/1998/namespace\x7dlang"

/-- Non-blank text of an element: `(child.text or "").strip()`, blank → `None`. -/
def nonBlankText (e : XElem) : Option String :=
  let t := pyStrip ((e.text).getD "")
  if t = "" then none else some t

/-- `_text(el, path, lang)` (`src/artdig/rijks/lido.py` lines 29–44): with a
language, the first language-tagged match with non-blank text wins; otherwise
(or if none matched) the first match of the path with non-blank text. -/
def lidoText (el : Option XElem) (path : List String) (lang : Option String) : Option String :=
  match el with
  | none => none
  | some e =>
    let fromLang :=
      match lang with
      | none => none
      | some lg =>
        (findallPath e path).findSome? (fun child =>
          if child.attr XML_LANG = some lg then nonBlankText child else none)
    match fromLang with
    | some t => some t
    | none => (findPath e path).bind nonBlankText

/-- Python `a or b` where both operands come from `_text` (never `""`). -/
def orS (a b : Option String) : Option String :=
  match a with
  | some x => some x
  | none => b

/-- The English/Dutch/untagged `_text` fallback chain used throughout. -/
def textEnNl (el : Option XElem) (path : List String) : Option String :=
  orS (lidoText el path (some "en")) (orS (lidoText el path (some "nl")) (lidoText el path none))

/-- `re.search(r"/aat/\d+", text)`: some occurrence of `/aat/` is followed by
a digit. -/
def hasAatNumL : List Char → Bool
  | [] => false
  | c :: rest =>
    (isPrefixL "/aat/".data (c :: rest) &&
      (match rest.drop 4 with
       | d :: _ => d.isDigit
       | [] => false)) ||
    hasAatNumL rest

/-- `_aat_uri(concept_el)` (lines 61–71): the first `conceptID` child whose
trimmed text contains `vocab.getty.edu/aat/` and matches `/aat/\d+`. -/
def aat_uri (concept_el : Option XElem) : Option String :=
  match concept_el with
  | none => none
  | some c =>
    (childrenTagged c (lq "conceptID")).findSome? (fun cid =>
      let t := pyStrip ((cid.text).getD "")
      if hasSubS t "vocab.getty.edu/aat/" && hasAatNumL t.data then some t else none)

/-- `_to_cm(value, unit)` (lines 74–81): lower-case and strip the unit;
`cm` passes through, `mm` divides by 10, anything else is unconvertible. -/
def to_cm (value : Rat) (unit : String) : Option Rat :=
  let u := pyStrip (pyLower unit)
  if u = "cm" then some value
  else if u = "mm" then some (value / 10)
  else none

/-- `re.search(r"(\d{3,4})", s)`: at each position try to match greedily 3 or
4 digits; the first position with at least 3 consecutive digits wins. -/
def scan34 : List Char → Option (List Char)
  | c0 :: c1 :: c2 :: rest =>
    if c0.isDigit && c1.isDigit && c2.isDigit then
      some (match rest with
            | c3 :: _ => if c3.isDigit then [c0, c1, c2, c3] else [c0, c1, c2]
            | [] => [c0, c1, c2])
    else scan34 (c1 :: c2 :: rest)
  | _ => none

/-- `int(...)` on a run of decimal digits. -/
def natOfDigits (ds : List Char) : Nat :=
  ds.foldl (fun n c => 10 * n + (c.toNat - 48)) 0

/-- `_parse_year(s)` (lines 87–94): `None` for `None`/empty input, else the
integer value of the first `\d{3,4}` regex match, `None` when there is none. -/
def parse_year (s : Option String) : Option Nat :=
  match s with
  | none => none
  | some str =>
    if str = "" then none
    else (scan34 str.data).map natOfDigits

/-- Python `float(s)` on the plain decimal forms occurring in LIDO measurement
values: optional sign, digits with an optional single decimal point (Python
additionally accepts exponents and special values — not used by this data).
Failure (`ValueError`) is `none`. -/
def pyFloat? (s : String) : Option Rat :=
  let cs := s.data
  let signed : Bool × List Char :=
    match cs with
    | '-' :: t => (true, t)
    | '+' :: t => (false, t)
    | t => (false, t)
  let body := signed.2
  let mag : Option Rat :=
    match splitOnL ['.'] body with
    | [ip] =>
      if ip ≠ [] ∧ ip.all Char.isDigit then some ((natOfDigits ip : Nat) : Rat) else none
    | [ip, fp] =>
      if (ip ++ fp) ≠ [] ∧ ip.all Char.isDigit ∧ fp.all Char.isDigit then
        some (((natOfDigits ip : Nat) : Rat) + ((natOfDigits fp : Nat) : Rat) / ((10 : Rat) ^ fp.length))
      else none
    | _ => none
  mag.map (fun m => if signed.1 then -m else m)

/-! ## LIDO converter — record wrappers (`LIDORecord.__init__`, lines 100–119) -/

/-- `self._desc_meta`. -/
def descMeta (el : XElem) : Option XElem := findPath el [lq "descriptiveMetadata"]

/-- `self._admin_meta`. -/
def adminMeta (el : XElem) : Option XElem := findPath el [lq "administrativeMetadata"]

/-- `self._ident_wrap`. -/
def identWrap (el : XElem) : Option XElem :=
  (descMeta el).bind (fun d => findPath d [lq "objectIdentificationWrap"])

/-- `self._event_wrap`. -/
def eventWrap (el : XElem) : Option XElem :=
  (descMeta el).bind (fun d => findPath d [lq "eventWrap"])

/-- `_find_creation_event` without the cache (lines 121–144): the first
`eventSet` whose `event` has an `eventType` with a `conceptID` containing
`expression_creation`, or an English `term` containing `creation`
(case-insensitively). -/
def find_creation_event (el : XElem) : Option XElem :=
  match eventWrap el with
  | none => none
  | some ew =>
    (findallPath ew [lq "eventSet"]).findSome? (fun event_set =>
      match findPath event_set [lq "event"] with
      | none => none
      | some event =>
        match findPath event [lq "eventType"] with
        | none => none
        | some et =>
          let cidHit :=
            match lidoText (some et) [lq "conceptID"] none with
            | some cid => hasSubS cid "expression_creation"
            | none => false
          let termHit :=
            match lidoText (some et) [lq "term"] (some "en") with
            | some term => hasSubS (pyLower term) "creation"
            | none => false
          if cidHit || termHit then some event else none)

/-- The mutable per-record state of `LIDORecord`: the element and the
memoization cells `_creation_event` / `_creation_event_searched`. -/
structure LIDOState where
  el : XElem
  creation_event : Option XElem := none
  searched : Bool := false

/-- A fresh `LIDORecord(el)`: cache empty, not yet searched. -/
def initState (el : XElem) : LIDOState := { el := el }

/-- `_find_creation_event` with the cache (lines 121–144): return the cached
event when already searched, else search once and record the result (the code
marks `searched` before scanning and stores the event only on a hit, so a miss
leaves the cell `None` — the same value the search returns). -/
def find_creation_event_m (s : LIDOState) : Option XElem × LIDOState :=
  if s.searched then (s.creation_event, s)
  else
    let r := find_creation_event s.el
    (r, { s with creation_event := r, searched := true })

/-! ## LIDO converter — creator, dates, materials (lines 235–354) -/

/-- The result dict of `creator()`. -/
structure Creator where
  name : Option String := none
  role : Option String := none
  nationality : Option String := none
  qualifier : Option String := none
  birth_year : Option Nat := none
  death_year : Option Nat := none
deriving DecidableEq, Repr

/-- The body of `creator()` (lines 240–295) applied to the discovered
creation event. -/
def creatorFrom (event? : Option XElem) : Creator :=
  match event? with
  | none => {}
  | some event =>
    match findPath event [lq "eventActor", lq "actorInRole"] with
    | none => {}
    | some actor_el =>
      let actor := findPath actor_el [lq "actor"]
      let name :=
        match actor with
        | some a => textEnNl (some a) [lq "nameActorSet", lq "appellationValue"]
        | none => none
      let nationality :=
        match actor with
        | some a => textEnNl (some a) [lq "nationalityActor", lq "term"]
        | none => none
      let vital := actor.bind (fun a => findPath a [lq "vitalDatesActor"])
      let birth :=
        match vital with
        | some v => parse_year (lidoText (some v) [lq "earliestDate"] none)
        | none => none
      let death :=
        match vital with
        | some v => parse_year (lidoText (some v) [lq "latestDate"] none)
        | none => none
      let role :=
        match findPath actor_el [lq "roleActor"] with
        | some r => textEnNl (some r) [lq "term"]
        | none => none
      let qualifier := textEnNl (some actor_el) [lq "attributionQualifierActor"]
      { name := name, role := role, nationality := nationality,
        qualifier := qualifier, birth_year := birth, death_year := death }

/-- The body of `date_range()` (lines 299–309) applied to the creation event. -/
def dateRangeFrom (event? : Option XElem) : Option Nat × Option Nat :=
  match event? with
  | none => (none, none)
  | some event =>
    match findPath event [lq "eventDate", lq "date"] with
    | none => (none, none)
    | some date_el =>
      (parse_year (lidoText (some date_el) [lq "earliestDate"] none),
       parse_year (lidoText (some date_el) [lq "latestDate"] none))

/-- One materials/techniques entry. -/
structure MatEntry where
  label_en : Option String := none
  label_nl : Option String := none
  aat : Option String := none
deriving DecidableEq, Repr

/-- The body of `_materials_and_techniques()` (lines 313–344) applied to the
creation event: entries with neither label are dropped; an entry whose
`lido:type` attribute contains `technique` goes to the techniques list, all
others to the materials list. -/
def matsTechsFrom (event? : Option XElem) : List MatEntry × List MatEntry :=
  match event? with
  | none => ([], [])
  | some event =>
    (findallPath event [lq "eventMaterialsTech"]).foldl
      (fun (acc : List MatEntry × List MatEntry) emt =>
        match findPath emt [lq "materialsTech"] with
        | none => acc
        | some mt =>
          match findPath mt [lq "termMaterialsTech"] with
          | none => acc
          | some term_el =>
            let entry : MatEntry :=
              { label_en := lidoText (some term_el) [lq "term"] (some "en"),
                label_nl := lidoText (some term_el) [lq "term"] (some "nl"),
                aat := aat_uri (some term_el) }
            if entry.label_en = none ∧ entry.label_nl = none then acc
            else
              let mt_type := (term_el.attr (lq "type")).getD ""
              if hasSubS mt_type "technique" then (acc.1, acc.2 ++ [entry])
              else (acc.1 ++ [entry], acc.2)
      ) ([], [])

/-- `creator()` — memoized lookup, then pure extraction. -/
def creator (s : LIDOState) : Creator × LIDOState :=
  let r := find_creation_event_m s
  (creatorFrom r.1, r.2)

/-- `date_range()` — memoized lookup, then pure extraction. -/
def date_range (s : LIDOState) : (Option Nat × Option Nat) × LIDOState :=
  let r := find_creation_event_m s
  (dateRangeFrom r.1, r.2)

/-- `materials()` — memoized lookup, then pure extraction. -/
def materials (s : LIDOState) : List MatEntry × LIDOState :=
  let r := find_creation_event_m s
  ((matsTechsFrom r.1).1, r.2)

/-- `techniques()` — memoized lookup, then pure extraction. -/
def techniques (s : LIDOState) : List MatEntry × LIDOState :=
  let r := find_creation_event_m s
  ((matsTechsFrom r.1).2, r.2)

/-- `creator()` re-derived from scratch (no cache). -/
def creator_nocache (el : XElem) : Creator := creatorFrom (find_creation_event el)

/-- `date_range()` re-derived from scratch. -/
def date_range_nocache (el : XElem) : Option Nat × Option Nat :=
  dateRangeFrom (find_creation_event el)

/-- `materials()` re-derived from scratch. -/
def materials_nocache (el : XElem) : List MatEntry :=
  (matsTechsFrom (find_creation_event el)).1

/-- `techniques()` re-derived from scratch. -/
def techniques_nocache (el : XElem) : List MatEntry :=
  (matsTechsFrom (find_creation_event el)).2

/-! ## LIDO converter — dimensions (lines 358–442) -/

/-- One parsed measurement of `all_dimensions()`. -/
structure Meas where
  type : String
  value : Rat
  unit : String
  extent : Option String
deriving DecidableEq, Repr

/-- `all_dimensions()` (lines 358–405): per measurements-set extent label and
per `measurementsSet` a type/value/unit triple; entries whose value fails to
parse as a float are dropped. -/
def all_dimensions (el : XElem) : List Meas :=
  match (identWrap el).bind (fun iw => findPath iw [lq "objectMeasurementsWrap"]) with
  | none => []
  | some mw =>
    (findallPath mw [lq "objectMeasurementsSet"]).foldl
      (fun acc meas_set =>
        match findPath meas_set [lq "objectMeasurements"] with
        | none => acc
        | some om =>
          let extent := textEnNl (some om) [lq "extentMeasurements"]
          acc ++ (findallPath om [lq "measurementsSet"]).foldl
            (fun acc2 ms =>
              let mtype := textEnNl (some ms) [lq "measurementType"]
              let unit := textEnNl (some ms) [lq "measurementUnit"]
              let value_str := lidoText (some ms) [lq "measurementValue"] none
              match mtype, value_str with
              | some mt, some vs =>
                match pyFloat? vs with
                | some v => acc2 ++ [{ type := pyLower mt, value := v,
                                       unit := unit.getD "", extent := extent }]
                | none => acc2
              | _, _ => acc2)
            [])
      []

/-- `_PRIMARY_EXTENTS` (line 24). -/
def primaryExtents : List String := ["support", "drager"]

/-- `_SKIP_EXTENTS` (line 26). -/
def skipExtents : List String := ["frame", "lijst", "sight size", "dagmaat", "rand"]

/-- `(d["extent"] or "").lower().strip()`. -/
def normExtent (d : Meas) : String := pyStrip (pyLower ((d.extent).getD ""))

/-- One iteration of the grouping loop of `primary_dimensions_cm`
(lines 423–434): skip frame-like extents, put support-like extents in the
first bucket and unlabelled ones in the second; only convertible (cm/mm)
values enter. -/
def bucketsStep (acc : List (String × Rat) × List (String × Rat)) (d : Meas) :
    List (String × Rat) × List (String × Rat) :=
  let extent := normExtent d
  match to_cm d.value d.unit with
  | none => acc
  | some cm =>
    if skipExtents.contains extent then acc
    else if primaryExtents.contains extent then (upsert acc.1 d.type cm, acc.2)
    else if extent = "" then (acc.1, upsert acc.2 d.type cm)
    else acc

/-- The grouping loop of `primary_dimensions_cm` (lines 419–434). -/
def buckets (dims : List Meas) : List (String × Rat) × List (String × Rat) :=
  dims.foldl bucketsStep ([], [])

/-- `primary_dimensions_cm()` (lines 407–442): prefer the support bucket when
non-empty, else the no-extent bucket; height from `height`, width from
`width or breedte`, depth from `depth or diepte` (Python `or`, so a `0.0`
value falls through). -/
def primary_dimensions_cm (el : XElem) : Option Rat × Option Rat × Option Rat :=
  let dims := all_dimensions el
  if dims = [] then (none, none, none)
  else
    let bs := buckets dims
    let best := if bs.1 ≠ [] then bs.1 else bs.2
    (assocFind best "height",
     pyOrQ (assocFind best "width") (assocFind best "breedte"),
     pyOrQ (assocFind best "depth") (assocFind best "diepte"))

/-! ## C8 call-sequence machinery -/

/-- One public accessor call that consults the creation-event cache. -/
inductive LIDOCall where
  | creatorC
  | dateRangeC
  | materialsC
  | techniquesC
deriving DecidableEq, Repr

/-- The result of one such call. -/
inductive LIDOOut where
  | creatorO : Creator → LIDOOut
  | dateRangeO : Option Nat × Option Nat → LIDOOut
  | materialsO : List MatEntry → LIDOOut
  | techniquesO : List MatEntry → LIDOOut
deriving DecidableEq, Repr

/-- Run one accessor against the mutable record state. -/
def stepCall (s : LIDOState) : LIDOCall → LIDOOut × LIDOState
  | .creatorC => let r := creator s; (.creatorO r.1, r.2)
  | .dateRangeC => let r := date_range s; (.dateRangeO r.1, r.2)
  | .materialsC => let r := materials s; (.materialsO r.1, r.2)
  | .techniquesC => let r := techniques s; (.techniquesO r.1, r.2)

/-- Run a sequence of accessor calls against one record, collecting results. -/
def runCalls (s : LIDOState) : List LIDOCall → List LIDOOut
  | [] => []
  | c :: cs =>
    let r := stepCall s c
    r.1 :: runCalls r.2 cs

/-- The cache-free meaning of one accessor call. -/
def pureCall (el : XElem) : LIDOCall → LIDOOut
  | .creatorC => .creatorO (creator_nocache el)
  | .dateRangeC => .dateRangeO (date_range_nocache el)
  | .materialsC => .materialsO (materials_nocache el)
  | .techniquesC => .techniquesO (techniques_nocache el)

/-! ## Serialization shape predicates (for the canonical-record invariant) -/

/-- A top-level `to_dict` value the Python filter skips: `None`, `[]`, or an
empty dict (the filter does not skip `""`, `False` or `0`). -/
def isEmptyish : Json → Bool
  | .null => true
  | .arr [] => true
  | .obj [] => true
  | _ => false

mutual

/-- No empty JSON array occurs anywhere inside the value. -/
def noEmptyArr : Json → Bool
  | .null => true
  | .bool _ => true
  | .num _ => true
  | .str _ => true
  | .arr xs => !xs.isEmpty && noEmptyArrList xs
  | .obj fs => noEmptyArrFields fs

/-- `noEmptyArr` over a list of values. -/
def noEmptyArrList : List Json → Bool
  | [] => true
  | j :: js => noEmptyArr j && noEmptyArrList js

/-- `noEmptyArr` over the values of a field list. -/
def noEmptyArrFields : List (String × Json) → Bool
  | [] => true
  | kv :: rest => noEmptyArr kv.2 && noEmptyArrFields rest

end

/-! ## Concrete fixture documents for the claims -/

/-- A Linked Art document whose id is the spec's example URI (which does not
carry the Getty stem, so the last-path-segment fallback applies). -/
def gettyExampleDoc : Json :=
  Json.obj [("id", Json.str
    "https://data.example.org/museum/collection/object/00007c19-13a5-4ed4-adfd-78b08df2b92c")]

/-- A `referred_to_by` entry classified under the given local term. -/
def refEntry (cls text : String) : Json :=
  Json.obj [("classified_as", Json.arr [Json.obj [("id", Json.str cls)]]),
            ("content", Json.str text)]

/-- A production node whose only fallback field is the nationality-and-dates
entry (no contributors, no producer name, no producer description). -/
def natOnlyProduction : Json :=
  Json.obj [("referred_to_by", Json.arr [refEntry LOCAL_PRODUCER_NAT_DATES "Dutch, 1606 - 1669"])]

/-- A document carrying only that production node. -/
def natOnlyDoc : Json := Json.obj [("produced_by", natOnlyProduction)]

/-- A production node with one (empty) contributor and fallback name,
description and nationality entries. -/
def contributorProduction : Json :=
  Json.obj [("carried_out_by", Json.arr [Json.obj [("_label", Json.str "Rembrandt")]]),
            ("referred_to_by", Json.arr
              [refEntry LOCAL_PRODUCER_NAME "Fallback Name",
               refEntry LOCAL_PRODUCER_DESC "Dutch painter",
               refEntry LOCAL_PRODUCER_NAT_DATES "Dutch, 1606 - 1669"])]

/-- A document whose id equals the Getty object-URI stem exactly (stripping
leaves the empty string) and whose production lists one bare contributor
(serializing to an artist entry with no fields). -/
def emptyishDoc : Json :=
  Json.obj [("id", Json.str OBJ_URI_STEM),
            ("produced_by", Json.obj [("carried_out_by", Json.arr [Json.obj []])])]

/-- A Name-typed identification entry with the given content and no
classifications. -/
def plainName (text : String) : Json :=
  Json.obj [("type", Json.str "Name"), ("content", Json.str text)]

/-- A Name-typed identification entry classified as Preferred Term. -/
def preferredName (text : String) : Json :=
  Json.obj [("type", Json.str "Name"), ("content", Json.str text),
            ("classified_as", Json.arr [Json.obj [("id", Json.str AAT_PREFERRED_TERM)]])]

/-- A LIDO `measurementsSet` with the given type, unit and value texts. -/
def mkMeasTriple (ty unit val : String) : XElem :=
  XElem.node (lq "measurementsSet") [] none
    [XElem.node (lq "measurementType") [] (some ty) [],
     XElem.node (lq "measurementUnit") [] (some unit) [],
     XElem.node (lq "measurementValue") [] (some val) []]

/-- A LIDO `objectMeasurementsSet` with an optional extent label. -/
def mkMeasSet (extent : Option String) (mss : List XElem) : XElem :=
  XElem.node (lq "objectMeasurementsSet") [] none
    [XElem.node (lq "objectMeasurements") [] none
      ((match extent with
        | some e => [XElem.node (lq "extentMeasurements") [] (some e) []]
        | none => []) ++ mss)]

/-- A LIDO record element carrying the given measurement sets. -/
def mkMeasRec (msets : List XElem) : XElem :=
  XElem.node (lq "lido") [] none
    [XElem.node (lq "descriptiveMetadata") [] none
      [XElem.node (lq "objectIdentificationWrap") [] none
        [XElem.node (lq "objectMeasurementsWrap") [] none msets]]]

/-- A record with a support-extent height/width pair and a frame-extent
height/width pair (the C4 scenario). -/
def supportFrameRec : XElem :=
  mkMeasRec [mkMeasSet (some "support") [mkMeasTriple "height" "cm" "100", mkMeasTriple "width" "mm" "246"],
             mkMeasSet (some "frame") [mkMeasTriple "height" "cm" "120", mkMeasTriple "width" "cm" "90"]]

/-- Like `supportFrameRec`, but the support width is `0` — a falsy float. -/
def zeroWidthRec : XElem :=
  mkMeasRec [mkMeasSet (some "support") [mkMeasTriple "height" "cm" "10", mkMeasTriple "width" "cm" "0"],
             mkMeasSet (some "frame") [mkMeasTriple "height" "cm" "120", mkMeasTriple "width" "cm" "90"]]

/-- A record whose only measurement carries an inch unit. -/
def inchRec : XElem :=
  mkMeasRec [mkMeasSet none [mkMeasTriple "height" "inch" "10"]]

/-- A LIDO record with an acquisition event-set followed by an
expression-creation event-set carrying a date. -/
def creationRec : XElem :=
  XElem.node (lq "lido") [] none
    [XElem.node (lq "descriptiveMetadata") [] none
      [XElem.node (lq "eventWrap") [] none
        [XElem.node (lq "eventSet") [] none
          [XElem.node (lq "event") [] none
            [XElem.node (lq "eventType") [] none
              [XElem.node (lq "conceptID") [] (some "http://terminology.lido-schema.org/eventType/acquisition") []]]],
         XElem.node (lq "eventSet") [] none
          [XElem.node (lq "event") [] none
            [XElem.node (lq "eventType") [] none
              [XElem.node (lq "conceptID") [] (some "http://terminology.lido-schema.org/eventType/expression_creation") []],
             XElem.node (lq "eventDate") [] none
              [XElem.node (lq "date") [] none
                [XElem.node (lq "earliestDate") [] (some "1642") [],
                 XElem.node (lq "latestDate") [] (some "ca. 1645") []]]]]]]]

/-! ## Specification-side characterizations used in claim statements -/

/-- The first usable Name content of an identification list: the first
Name-typed entry whose `_content` is non-blank. -/
def firstNameContent (es : List Json) : Option String :=
  es.findSome? (fun e =>
    if e.getStr? "type" = some "Name" then content? (some e) else none)

/-- The maximal runs of consecutive digits in a string, in order (the
claim-side reading of `re.search(r"(\d{3,4})")`). -/
def digitRuns : List Char → List (List Char)
  | [] => []
  | c :: cs =>
    if c.isDigit then (c :: cs.takeWhile Char.isDigit) :: digitRuns (cs.dropWhile Char.isDigit)
    else digitRuns cs
termination_by l => l.length
decreasing_by
  all_goals simp only [List.length_cons]
  · have h : ∀ l : List Char, (l.dropWhile Char.isDigit).length ≤ l.length := by
      intro l
      induction l with
      | nil => simp [List.dropWhile]
      | cons c cs ih =>
        simp only [List.dropWhile]
        split
        · exact Nat.le_succ_of_le ih
        · simp
    exact Nat.lt_succ_of_le (h _)
  · exact Nat.lt_succ_self _

/-- The first maximal digit run of length at least 3, clipped to its first
four digits — the claim-side value of the lenient year parse. -/
def firstRun34 (cs : List Char) : Option (List Char) :=
  ((digitRuns cs).find? (fun r => 3 ≤ r.length)).map (fun r => r.take 4)

/-! ## Shared lemmas -/

/-- A string produced by `_content` is never empty (it is trimmed and gated). -/
theorem content?_ne_empty {x : Option Json} {t : String} (h : content? x = some t) :
    ¬(t = "") := by
  cases x with
  | none => simp [content?] at h
  | some j =>
    simp only [content?] at h
    split at h
    · next v heq =>
      split at h
      · exact absurd h (by simp)
      · next hne =>
        intro ht
        apply hne
        rw [Option.some_inj.mp h, ht]
    · exact absurd h (by simp)

/-! ## C1 — failure policy of `convert` -/

/-- C1 (corrected): `convert` never raises; on every document it returns
normally, and when the top-level `id` key is absent the result's `id` field
is `None` rather than an error — there is no `MissingIdentity` /
`UnparseableDocument` failure path in the code. -/
theorem C1_convert_never_raises : ∀ raw : Json,
    convert raw = .ok (convertObj raw) ∧
    (Json.lookup raw "id" = none → (convertObj raw).id = none) := by
  intro raw
  refine ⟨rfl, fun h => ?_⟩
  have hid : (convertObj raw).id = stripObjectId (raw.getStrD "id" "") := rfl
  have hs : raw.getStrD "id" "" = "" := by simp [Json.getStrD, Json.getStr?, h]
  rw [hid, hs]
  decide

/-- Witness for C1 at the concrete document with no `id` key. -/
theorem C1_witness :
    convert (Json.obj []) = .ok (convertObj (Json.obj [])) ∧
    (convertObj (Json.obj [])).id = none :=
  ⟨(C1_convert_never_raises (Json.obj [])).1,
   (C1_convert_never_raises (Json.obj [])).2 rfl⟩

/-- C1 counterexample: the claim "convert raises exactly when the top-level id
is absent" is false at the empty document — the id is absent there, yet
`convert` succeeds. -/
theorem C1_counterexample :
    ¬ (((convert (Json.obj [])).isOk = false) ↔ Json.lookup (Json.obj []) "id" = none) := by
  intro h
  have h1 := h.mpr rfl
  simp [convert, Except.isOk, Except.toBool] at h1

/-! ## C7 — id stability of `convert` -/

/-- C7 (confirmed): for the spec's example id the canonical id produced by
`convert` is exactly the trailing UUID; in general a Getty-stem id is
prefix-stripped and any other non-empty id falls back to its last path
segment. -/
theorem C7_id_stability :
    (convertObj gettyExampleDoc).id = some "00007c19-13a5-4ed4-adfd-78b08df2b92c" ∧
    (∀ (s : String) (rest : List (String × Json)), pyStartsWith s OBJ_URI_STEM = true →
      (convertObj (Json.obj (("id", Json.str s) :: rest))).id =
        some (pyDrop s OBJ_URI_STEM.length)) ∧
    (∀ (s : String) (rest : List (String × Json)), pyStartsWith s OBJ_URI_STEM = false →
      ¬(s = "") →
      (convertObj (Json.obj (("id", Json.str s) :: rest))).id =
        some ((pySplit (rstripSlash s) "/").getLastD "")) := by
  refine ⟨rfl, ?_, ?_⟩
  · intro s rest h
    have hid : (convertObj (Json.obj (("id", Json.str s) :: rest))).id
        = stripObjectId ((Json.obj (("id", Json.str s) :: rest)).getStrD "id" "") := rfl
    have hs : (Json.obj (("id", Json.str s) :: rest)).getStrD "id" "" = s := by
      simp [Json.getStrD, Json.getStr?, Json.lookup, assocFind]
    rw [hid, hs]
    simp [stripObjectId, h]
  · intro s rest h h2
    have hid : (convertObj (Json.obj (("id", Json.str s) :: rest))).id
        = stripObjectId ((Json.obj (("id", Json.str s) :: rest)).getStrD "id" "") := rfl
    have hs : (Json.obj (("id", Json.str s) :: rest)).getStrD "id" "" = s := by
      simp [Json.getStrD, Json.getStr?, Json.lookup, assocFind]
    rw [hid, hs]
    simp [stripObjectId, h, h2]

/-- Witness for C7 at a Getty-stem id and at a non-matching id. -/
theorem C7_witness :
    pyStartsWith "https://data.getty.edu/museum/collection/object/abc" OBJ_URI_STEM = true ∧
    (convertObj (Json.obj [("id",
      Json.str "https://data.getty.edu/museum/collection/object/abc")])).id = some "abc" ∧
    pyStartsWith "https://data.example.org/a/b" OBJ_URI_STEM = false ∧
    (convertObj (Json.obj [("id", Json.str "https://data.example.org/a/b")])).id = some "b" := by
  refine ⟨by decide, ?_, by decide, ?_⟩
  · have h := C7_id_stability.2.1 "https://data.getty.edu/museum/collection/object/abc" []
      (by decide)
    rw [h]; decide
  · have h := C7_id_stability.2.2 "https://data.example.org/a/b" [] (by decide) (by decide)
    rw [h]; decide

/-! ## C2 — production-level fallback producer fields -/

/-- C2 counterexample: with no contributors and only a nationality-and-dates
entry present among the production-level `referred_to_by`, no artist entry is
synthesized — the claim that any of the three fields (name, description, or
nationality) triggers synthesis is false at this input. -/
theorem C2_counterexample :
    producerNatRef natOnlyProduction = some "Dutch, 1606 - 1669" ∧
    (convertObj natOnlyDoc).artists = [] :=
  ⟨rfl, rfl⟩

/-- C2 (corrected): with contributors listed, the first artist receives the
production-level description and nationality, and the fallback name only when
the artist's own label is falsy; with no contributors, a single artist is
synthesized exactly when the fallback name or the description is present —
a nationality alone does not trigger synthesis. -/
theorem C2_fallback_producer : ∀ pb : Json,
    (∀ (a0 : Artist) (rest : List Artist),
      baseArtists (pb.getArr "carried_out_by") = a0 :: rest →
      extract_artists pb =
        { a0 with
          description := producerDescRef pb,
          nationality_and_dates := producerNatRef pb,
          name := if !truthyS a0.name && (producerNameRef pb).isSome
                  then producerNameRef pb else a0.name } :: rest) ∧
    (baseArtists (pb.getArr "carried_out_by") = [] →
      ((producerNameRef pb = none → producerDescRef pb = none → extract_artists pb = []) ∧
       ((producerNameRef pb).isSome ∨ (producerDescRef pb).isSome →
        extract_artists pb =
          [{ name := producerNameRef pb, role := none,
             nationality_and_dates := producerNatRef pb,
             description := producerDescRef pb, id := none }]))) := by
  intro pb
  constructor
  · intro a0 rest h
    simp only [extract_artists, h]
  · intro h
    constructor
    · intro hn hd
      simp [extract_artists, h, hn, hd]
    · intro hor
      rcases hor with hn | hd
      · simp [extract_artists, h, hn]
      · simp [extract_artists, h, hd]

/-- Witness for C2: a production with one labelled contributor and all three
fallback entries, and a production with no contributors and a description. -/
theorem C2_witness :
    extract_artists contributorProduction =
      [{ name := some "Rembrandt", role := none,
         nationality_and_dates := some "Dutch, 1606 - 1669",
         description := some "Dutch painter", id := none }] ∧
    extract_artists (Json.obj [("referred_to_by",
        Json.arr [refEntry LOCAL_PRODUCER_DESC "Dutch painter"])]) =
      [{ name := none, role := none, nationality_and_dates := none,
         description := some "Dutch painter", id := none }] := by
  constructor
  · have h := (C2_fallback_producer contributorProduction).1
      { name := some "Rembrandt", role := none, nationality_and_dates := none,
        description := none, id := none } [] rfl
    rw [h]; rfl
  · have h := ((C2_fallback_producer (Json.obj [("referred_to_by",
        Json.arr [refEntry LOCAL_PRODUCER_DESC "Dutch painter"])])).2 rfl).2
      (Or.inr rfl)
    rw [h]; rfl

/-! ## C6 — preferred-term title tie-break -/

/-- Scanning entries none of which is a Name finds nothing and keeps the
accumulated first name. -/
theorem scan_no_name : ∀ (es : List Json) (first : Option String),
    (∀ e ∈ es, ¬(e.getStr? "type" = some "Name")) →
    extract_title_scan es first = (none, first) := by
  intro es
  induction es with
  | nil => intro first _; rfl
  | cons e es ih =>
    intro first h
    have he := h e (List.mem_cons_self e es)
    rw [extract_title_scan, if_pos he]
    exact ih first (fun x hx => h x (List.mem_cons_of_mem e hx))

/-- Scanning entries none of which is classified preferred/primary yields no
preferred title and the first usable Name content. -/
theorem scan_no_pref : ∀ (es : List Json) (first : Option String),
    (∀ e ∈ es, has_class e AAT_PREFERRED_TERM = false ∧ has_class e AAT_PRIMARY_TITLE = false) →
    extract_title_scan es first =
      (none, match first with | some f => some f | none => firstNameContent es) := by
  intro es
  induction es with
  | nil => intro first _; cases first <;> rfl
  | cons e es ih =>
    intro first h
    have he := h e (List.mem_cons_self e es)
    have hrest := fun x hx => h x (List.mem_cons_of_mem e hx)
    by_cases ht : e.getStr? "type" = some "Name"
    · rcases hc : content? (some e) with _ | c
      · rw [extract_title_scan, if_neg (not_not_intro ht), hc]
        rw [ih first hrest]
        cases first with
        | none => simp [firstNameContent, List.findSome?_cons, ht, hc]
        | some f => rfl
      · rw [extract_title_scan, if_neg (not_not_intro ht), hc]
        cases first with
        | none =>
          simp only [he.1, he.2, Bool.or_self, Bool.false_eq_true, if_false, if_true,
            if_pos rfl]
          rw [ih (some c) hrest]
          simp [firstNameContent, List.findSome?_cons, ht, hc]
        | some f =>
          simp only [he.1, he.2, Bool.or_self, Bool.false_eq_true, if_false,
            if_neg (by simp : ¬(some f = (none : Option String)))]
          rw [ih (some f) hrest]
    · rw [extract_title_scan, if_pos ht]
      rw [ih first hrest]
      cases first with
      | none => simp [firstNameContent, List.findSome?_cons, ht]
      | some f => rfl

/-- C6 (confirmed): with one plain and one preferred/primary-classified Name
entry, the preferred one's content is the title in either list order; with no
preferred entry the first usable Name content wins (falling back to the label
under Python truthiness); with no Name entry the label fallback is returned. -/
theorem C6_preferred_title :
    (∀ (e1 e2 : Json) (fb : Option String) (t1 t2 : String),
      e1.getStr? "type" = some "Name" →
      content? (some e1) = some t1 →
      has_class e1 AAT_PREFERRED_TERM = false →
      has_class e1 AAT_PRIMARY_TITLE = false →
      e2.getStr? "type" = some "Name" →
      content? (some e2) = some t2 →
      (has_class e2 AAT_PREFERRED_TERM = true ∨ has_class e2 AAT_PRIMARY_TITLE = true) →
      extract_title [e1, e2] fb = some t2 ∧ extract_title [e2, e1] fb = some t2) ∧
    (∀ (es : List Json) (fb : Option String),
      (∀ e ∈ es, has_class e AAT_PREFERRED_TERM = false ∧
        has_class e AAT_PRIMARY_TITLE = false) →
      extract_title es fb = pyOrS (firstNameContent es) fb) ∧
    (∀ (es : List Json) (fb : Option String),
      (∀ e ∈ es, ¬(e.getStr? "type" = some "Name")) →
      extract_title es fb = fb) := by
  refine ⟨?_, ?_, ?_⟩
  · intro e1 e2 fb t1 t2 ht1 hc1 hp1 hp1' ht2 hc2 hp2
    have hne2 := content?_ne_empty hc2
    have hpref : (has_class e2 AAT_PREFERRED_TERM || has_class e2 AAT_PRIMARY_TITLE) = true := by
      rcases hp2 with h | h <;> simp [h]
    constructor
    · rw [extract_title]
      rw [extract_title_scan, if_neg (not_not_intro ht1), hc1]
      simp only [hp1, hp1', Bool.or_self, Bool.false_eq_true, if_false, if_pos rfl]
      rw [extract_title_scan, if_neg (not_not_intro ht2), hc2]
      simp [hpref, pyOrS, truthyS, hne2]
    · rw [extract_title]
      rw [extract_title_scan, if_neg (not_not_intro ht2), hc2]
      simp [hpref, pyOrS, truthyS, hne2]
  · intro es fb h
    rw [extract_title, scan_no_pref es none h]
    simp [pyOrS, truthyS]
  · intro es fb h
    rw [extract_title, scan_no_name es none h]
    simp [pyOrS, truthyS]

/-- Witness for C6 at concrete plain/preferred Name entries, a no-preferred
list, and a list with no Name entries. -/
theorem C6_witness :
    (extract_title [plainName "Plain", preferredName "Preferred"] none = some "Preferred" ∧
     extract_title [preferredName "Preferred", plainName "Plain"] none = some "Preferred") ∧
    extract_title [plainName "A", plainName "B"] none = some "A" ∧
    extract_title [] (some "Label") = some "Label" := by
  refine ⟨?_, ?_, ?_⟩
  · exact C6_preferred_title.1 (plainName "Plain") (preferredName "Preferred") none
      "Plain" "Preferred" rfl rfl rfl rfl rfl rfl (Or.inl rfl)
  · have h := C6_preferred_title.2.1 [plainName "A", plainName "B"] none
      (by
        intro e he
        simp only [List.mem_cons, List.not_mem_nil, or_false] at he
        rcases he with h | h <;> subst h <;> exact ⟨rfl, rfl⟩)
    rw [h]; rfl
  · exact C6_preferred_title.2.2 [] (some "Label") (by intro e he; cases he)

/-! ## C3 — shape of the serialized canonical record -/

/-- C3 counterexample: at a document whose id equals the object-URI stem and
whose production lists one bare contributor, the serialized record contains an
empty string (`id`) and an empty map (the artist entry inside `artists`) —
the claimed absence of empty strings and empty maps at any level is false. -/
theorem C3_counterexample :
    assocFind (GettyObject.to_dict (convertObj emptyishDoc)) "id" = some (Json.str "") ∧
    assocFind (GettyObject.to_dict (convertObj emptyishDoc)) "artists" =
      some (Json.arr [Json.obj []]) :=
  ⟨rfl, rfl⟩

/-- Every `optS` chunk passes the empty-value filter. -/
theorem allClean_optS (k : String) (v : Option String) :
    (optS k v).all (fun kv => !isEmptyish kv.2) = true := by
  cases v <;> simp [optS, isEmptyish]

/-- Every `optL` chunk passes the empty-value filter. -/
theorem allClean_optL (k : String) (vs : List String) :
    (optL k vs).all (fun kv => !isEmptyish kv.2) = true := by
  cases vs <;> simp [optL, isEmptyish]

/-- The dimensions chunk passes the empty-value filter. -/
theorem allClean_dims (ds : List (String × Dimensions)) :
    ((if ds = [] then []
      else [("dimensions", Json.obj (ds.map (fun p => (p.1, p.2.to_dict))))]).all
        (fun kv => !isEmptyish kv.2)) = true := by
  cases ds <;> simp [isEmptyish]

/-- The artists chunk passes the empty-value filter. -/
theorem allClean_artists (as : List Artist) :
    ((if as = [] then []
      else [("artists", Json.arr (as.map Artist.to_dict))]).all
        (fun kv => !isEmptyish kv.2)) = true := by
  cases as <;> simp [isEmptyish]

/-- The identifiers chunk passes the empty-value filter. -/
theorem allClean_idents (ids : List (String × String)) :
    ((if ids = [] then []
      else [("identifiers", Json.obj (ids.map (fun p => (p.1, Json.str p.2))))]).all
        (fun kv => !isEmptyish kv.2)) = true := by
  cases ids <;> simp [isEmptyish]

/-- `noEmptyArrFields` distributes over append. -/
theorem nea_fields_append (a b : List (String × Json)) :
    noEmptyArrFields (a ++ b) = (noEmptyArrFields a && noEmptyArrFields b) := by
  induction a with
  | nil => simp [noEmptyArrFields]
  | cons kv rest ih => simp [noEmptyArrFields, ih, Bool.and_assoc]

/-- `optS` chunks contain no arrays at all. -/
theorem nea_optS (k : String) (v : Option String) : noEmptyArrFields (optS k v) = true := by
  cases v <;> simp [optS, noEmptyArrFields, noEmptyArr]

/-- `optQ` chunks contain no arrays at all. -/
theorem nea_optQ (k : String) (v : Option Rat) : noEmptyArrFields (optQ k v) = true := by
  cases v <;> simp [optQ, noEmptyArrFields, noEmptyArr]

/-- Unfolding equation for `noEmptyArrList` on cons. -/
theorem noEmptyArrList_cons (j : Json) (js : List Json) :
    noEmptyArrList (j :: js) = (noEmptyArr j && noEmptyArrList js) := rfl

/-- Unfolding equation for `noEmptyArrFields` on cons. -/
theorem noEmptyArrFields_cons (kv : String × Json) (rest : List (String × Json)) :
    noEmptyArrFields (kv :: rest) = (noEmptyArr kv.2 && noEmptyArrFields rest) := rfl

/-- Unfolding equation for `noEmptyArr` on objects. -/
theorem noEmptyArr_obj (fs : List (String × Json)) :
    noEmptyArr (Json.obj fs) = noEmptyArrFields fs := rfl

/-- Unfolding equation for `noEmptyArr` on arrays. -/
theorem noEmptyArr_arr (xs : List Json) :
    noEmptyArr (Json.arr xs) = (!xs.isEmpty && noEmptyArrList xs) := rfl

/-- Lists of JSON strings contain no arrays. -/
theorem nea_strList (ss : List String) : noEmptyArrList (ss.map Json.str) = true := by
  induction ss with
  | nil => simp [noEmptyArrList]
  | cons a as ih => simp [noEmptyArrList_cons, noEmptyArr, ih]

/-- `optL` chunks contain no empty arrays (their lists are guarded non-empty
and their elements are strings). -/
theorem nea_optL (k : String) (vs : List String) : noEmptyArrFields (optL k vs) = true := by
  cases vs with
  | nil => simp [optL, noEmptyArrFields]
  | cons a as =>
    simp [optL, noEmptyArrFields_cons, noEmptyArrFields, noEmptyArr_arr, noEmptyArrList_cons,
      noEmptyArr, nea_strList]

/-- A serialized artist contains no arrays. -/
theorem nea_artist (a : Artist) : noEmptyArr a.to_dict = true := by
  rw [Artist.to_dict]
  simp [noEmptyArr_obj, nea_fields_append, nea_optS]

/-- Serialized artist lists contain no empty arrays. -/
theorem nea_artistList (as : List Artist) : noEmptyArrList (as.map Artist.to_dict) = true := by
  induction as with
  | nil => simp [noEmptyArrList]
  | cons a as ih => simp [noEmptyArrList_cons, nea_artist, ih]

/-- A serialized dimensions record contains no arrays. -/
theorem nea_dim (d : Dimensions) : noEmptyArr d.to_dict = true := by
  rw [Dimensions.to_dict]
  simp [noEmptyArr_obj, nea_fields_append, nea_optS, nea_optQ]

/-- Serialized dimension maps contain no arrays. -/
theorem nea_dimFields (ds : List (String × Dimensions)) :
    noEmptyArrFields (ds.map (fun p => (p.1, p.2.to_dict))) = true := by
  induction ds with
  | nil => simp [noEmptyArrFields]
  | cons d ds ih =>
    simp only [List.map_cons, noEmptyArrFields_cons, ih, Bool.and_true]
    exact nea_dim d.2

/-- Serialized identifier maps contain no arrays. -/
theorem nea_identFields (ids : List (String × String)) :
    noEmptyArrFields (ids.map (fun p => (p.1, Json.str p.2))) = true := by
  induction ids with
  | nil => simp [noEmptyArrFields]
  | cons kv ids ih =>
    simp only [List.map_cons, noEmptyArrFields_cons, ih, Bool.and_true]
    rfl

/-- The dimensions chunk contains no empty arrays. -/
theorem neaChunk_dims (ds : List (String × Dimensions)) :
    noEmptyArrFields (if ds = [] then []
      else [("dimensions", Json.obj (ds.map (fun p => (p.1, p.2.to_dict))))]) = true := by
  cases ds with
  | nil => simp [noEmptyArrFields]
  | cons d ds =>
    rw [if_neg (by simp)]
    show (noEmptyArr (Json.obj ((d :: ds).map (fun p => (p.1, p.2.to_dict)))) &&
      noEmptyArrFields []) = true
    rw [noEmptyArr_obj, nea_dimFields]
    rfl

/-- The artists chunk contains no empty arrays. -/
theorem neaChunk_artists (as : List Artist) :
    noEmptyArrFields (if as = [] then []
      else [("artists", Json.arr (as.map Artist.to_dict))]) = true := by
  cases as with
  | nil => simp [noEmptyArrFields]
  | cons a as =>
    simp [noEmptyArrFields_cons, noEmptyArrFields, noEmptyArr_arr, noEmptyArrList_cons,
      nea_artist, nea_artistList]

/-- The identifiers chunk contains no empty arrays. -/
theorem neaChunk_idents (ids : List (String × String)) :
    noEmptyArrFields (if ids = [] then []
      else [("identifiers", Json.obj (ids.map (fun p => (p.1, Json.str p.2))))]) = true := by
  cases ids with
  | nil => simp [noEmptyArrFields]
  | cons kv ids =>
    rw [if_neg (by simp)]
    show (noEmptyArr (Json.obj ((kv :: ids).map (fun p => (p.1, Json.str p.2)))) &&
      noEmptyArrFields []) = true
    rw [noEmptyArr_obj, nea_identFields]
    rfl

/-- Association lookup over an append steps through the left part. -/
theorem assocFind_append_none {α : Type} {a : List (String × α)} (b : List (String × α))
    {k : String} (ha : assocFind a k = none) : assocFind (a ++ b) k = assocFind b k := by
  induction a with
  | nil => rfl
  | cons kv rest ih =>
    obtain ⟨k', v'⟩ := kv
    by_cases h : k' = k
    · simp [assocFind, h] at ha
    · simp only [List.cons_append, assocFind, if_neg h] at ha ⊢
      exact ih ha

/-- An `optS` chunk under a different key yields no lookup hit. -/
theorem assocFind_optS_ne (k' k : String) (v : Option String) (h : ¬(k' = k)) :
    assocFind (optS k' v) k = none := by
  cases v <;> simp [optS, assocFind, h]

/-- An `optL` chunk under a different key yields no lookup hit. -/
theorem assocFind_optL_ne (k' k : String) (vs : List String) (h : ¬(k' = k)) :
    assocFind (optL k' vs) k = none := by
  cases vs <;> simp [optL, assocFind, h]

/-- The dimensions chunk under a different key yields no lookup hit. -/
theorem assocFind_dims_ne (ds : List (String × Dimensions)) (k : String)
    (h : ¬("dimensions" = k)) :
    assocFind (if ds = [] then []
      else [("dimensions", Json.obj (ds.map (fun p => (p.1, p.2.to_dict))))]) k = none := by
  cases ds <;> simp [assocFind, h]

/-- The artists chunk under a different key yields no lookup hit. -/
theorem assocFind_artists_ne (as : List Artist) (k : String) (h : ¬("artists" = k)) :
    assocFind (if as = [] then []
      else [("artists", Json.arr (as.map Artist.to_dict))]) k = none := by
  cases as <;> simp [assocFind, h]

/-- The identifiers chunk under a different key yields no lookup hit. -/
theorem assocFind_idents_ne (ids : List (String × String)) (k : String)
    (h : ¬("identifiers" = k)) :
    assocFind (if ids = [] then []
      else [("identifiers", Json.obj (ids.map (fun p => (p.1, Json.str p.2))))]) k = none := by
  cases ids <;> simp [assocFind, h]

/-- A boolean singleton chunk under a different key yields no lookup hit. -/
theorem assocFind_bool_ne (k' k : String) (b : Bool) (h : ¬(k' = k)) :
    assocFind [(k', Json.bool b)] k = none := by
  simp [assocFind, h]

/-- C3 (corrected): for every canonical record, the serialization omits every
`None`/empty-list/empty-map value at the top level, contains no empty list at
any nesting depth, and omits the `inscriptions` key when there are no
inscriptions — but empty strings and empty nested artist/dimension maps can
occur (see the counterexample), so the claim's blanket exclusion of empty
strings and of empty maps at all levels does not hold. -/
theorem C3_serialized_shape : ∀ o : GettyObject,
    (GettyObject.to_dict o).all (fun kv => !isEmptyish kv.2) = true ∧
    noEmptyArrFields (GettyObject.to_dict o) = true ∧
    (o.inscriptions = [] → assocFind (GettyObject.to_dict o) "inscriptions" = none) := by
  intro o
  refine ⟨?_, ?_, ?_⟩
  · rw [GettyObject.to_dict]
    simp only [List.all_append, Bool.and_eq_true, allClean_optS, allClean_optL, allClean_dims,
      allClean_artists, allClean_idents]
    simp [isEmptyish]
  · rw [GettyObject.to_dict]
    simp only [nea_fields_append, Bool.and_eq_true, nea_optS, nea_optL, neaChunk_dims,
      neaChunk_artists, neaChunk_idents]
    simp [noEmptyArrFields_cons, noEmptyArrFields, noEmptyArr]
  · intro h
    rw [GettyObject.to_dict, h]
    simp only [List.append_assoc]
    rw [assocFind_append_none _ (assocFind_optS_ne _ _ _ (by decide))]
    rw [assocFind_append_none _ (assocFind_optS_ne _ _ _ (by decide))]
    rw [assocFind_append_none _ (assocFind_optS_ne _ _ _ (by decide))]
    rw [assocFind_append_none _ (assocFind_optL_ne _ _ _ (by decide))]
    rw [assocFind_append_none _ (assocFind_optS_ne _ _ _ (by decide))]
    rw [assocFind_append_none _ (assocFind_optS_ne _ _ _ (by decide))]
    rw [assocFind_append_none _ (assocFind_optS_ne _ _ _ (by decide))]
    rw [assocFind_append_none _ (assocFind_optS_ne _ _ _ (by decide))]
    rw [assocFind_append_none _ (assocFind_optS_ne _ _ _ (by decide))]
    rw [assocFind_append_none _ (assocFind_optS_ne _ _ _ (by decide))]
    rw [assocFind_append_none _ (assocFind_optS_ne _ _ _ (by decide))]
    rw [assocFind_append_none _ (assocFind_optS_ne _ _ _ (by decide))]
    rw [assocFind_append_none _ (assocFind_dims_ne _ _ (by decide))]
    rw [assocFind_append_none _ (assocFind_artists_ne _ _ (by decide))]
    rw [assocFind_append_none _ (assocFind_optS_ne _ _ _ (by decide))]
    rw [assocFind_append_none _ (assocFind_optS_ne _ _ _ (by decide))]
    rw [assocFind_append_none _ (assocFind_optS_ne _ _ _ (by decide))]
    rw [assocFind_append_none _ (assocFind_optS_ne _ _ _ (by decide))]
    rw [assocFind_append_none _ (assocFind_optS_ne _ _ _ (by decide))]
    rw [assocFind_append_none _
      (by rfl : assocFind (optL "inscriptions" []) "inscriptions" = none)]
    rw [assocFind_append_none _ (assocFind_optL_ne _ _ _ (by decide))]
    rw [assocFind_append_none _ (assocFind_optS_ne _ _ _ (by decide))]
    rw [assocFind_append_none _ (assocFind_optS_ne _ _ _ (by decide))]
    rw [assocFind_append_none _ (assocFind_optS_ne _ _ _ (by decide))]
    rw [assocFind_append_none _ (assocFind_bool_ne _ _ _ (by decide))]
    exact assocFind_idents_ne _ _ (by decide)

/-- Witness for C3 at the record converted from the empty document (which has
no inscriptions). -/
theorem C3_witness :
    (GettyObject.to_dict (convertObj (Json.obj []))).all (fun kv => !isEmptyish kv.2) = true ∧
    noEmptyArrFields (GettyObject.to_dict (convertObj (Json.obj []))) = true ∧
    assocFind (GettyObject.to_dict (convertObj (Json.obj []))) "inscriptions" = none := by
  have h := C3_serialized_shape (convertObj (Json.obj []))
  exact ⟨h.1, h.2.1, h.2.2 rfl⟩

/-! ## C5 — unit conversion to centimeters -/

/-- C5 (confirmed): `_to_cm` returns a `cm` value unchanged, divides an `mm`
value by 10 (`246` mm is `24.6` cm), and yields `None` for any other unit
(e.g. `inch`); consequently an inch-only record yields a null axis in
`primary_dimensions_cm` rather than a value silently treated as centimeters. -/
theorem C5_unit_conversion : ∀ (v : Rat) (u : String),
    to_cm v "cm" = some v ∧
    to_cm v "mm" = some (v / 10) ∧
    (¬(pyStrip (pyLower u) = "cm") → ¬(pyStrip (pyLower u) = "mm") → to_cm v u = none) ∧
    to_cm 246 "mm" = some 24.6 ∧
    to_cm v "inch" = none ∧
    primary_dimensions_cm inchRec = (none, none, none) := by
  intro v u
  refine ⟨rfl, rfl, ?_, ?_, rfl, rfl⟩
  · intro h1 h2
    simp [to_cm, h1, h2]
  · have h : to_cm 246 "mm" = some ((246 : Rat) / 10) := rfl
    rw [h]
    norm_num

/-- Witness for C5 at `v = 5`, `u = "inch"`. -/
theorem C5_witness :
    to_cm 5 "cm" = some 5 ∧ to_cm 5 "inch" = none := by
  have h := C5_unit_conversion 5 "inch"
  exact ⟨h.1, (h.2.2.1 (by decide) (by decide))⟩

/-! ## C9 — unit-string normalization -/

/-- C9 (confirmed): `_to_cm` normalizes the unit by lower-casing then
stripping whitespace, so `CM` and ` Mm ` behave like `cm`/`mm`, and every
unit whose normal form is neither `cm` nor `mm` yields `None`. -/
theorem C9_unit_normalization : ∀ (v : Rat) (u : String),
    (pyStrip (pyLower u) = "cm" → to_cm v u = some v) ∧
    (pyStrip (pyLower u) = "mm" → to_cm v u = some (v / 10)) ∧
    (¬(pyStrip (pyLower u) = "cm") → ¬(pyStrip (pyLower u) = "mm") → to_cm v u = none) ∧
    to_cm v "CM" = some v ∧
    to_cm v " Mm " = some (v / 10) := by
  intro v u
  refine ⟨?_, ?_, ?_, rfl, rfl⟩
  · intro h
    simp [to_cm, h]
  · intro h
    simp [to_cm, h]
  · intro h1 h2
    simp [to_cm, h1, h2]

/-- Witness for C9 at `v = 7` with units `CM`, ` Mm ` and `inch`. -/
theorem C9_witness :
    to_cm 7 "CM" = some 7 ∧ to_cm 7 " Mm " = some (7 / 10) ∧ to_cm 7 "inch" = none := by
  refine ⟨(C9_unit_normalization 7 "CM").1 (by decide),
    (C9_unit_normalization 7 " Mm ").2.1 (by decide),
    (C9_unit_normalization 7 "inch").2.2.1 (by decide) (by decide)⟩

/-! ## C10 — the lenient year parser -/

/-- The regex scan `\d{3,4}` and the maximal-run description agree: the match
is the first maximal digit run of length at least 3, clipped to four digits. -/
theorem scan34_eq_firstRun34 : (cs : List Char) → scan34 cs = firstRun34 cs
  | [] => by
    have h : scan34 [] = none := rfl
    simp [h, firstRun34, digitRuns]
  | [c0] => by
    by_cases h : c0.isDigit <;>
      simp [scan34, firstRun34, digitRuns, h, List.find?]
  | [c0, c1] => by
    by_cases h0 : c0.isDigit <;> by_cases h1 : c1.isDigit <;>
      simp [scan34, firstRun34, digitRuns, h0, h1, List.takeWhile_cons,
        List.dropWhile_cons, List.find?]
  | c0 :: c1 :: c2 :: rest => by
    by_cases h0 : c0.isDigit
    · by_cases h1 : c1.isDigit
      · by_cases h2 : c2.isDigit
        · cases rest with
          | nil =>
            simp [scan34, firstRun34, digitRuns, h0, h1, h2, List.takeWhile_cons,
              List.dropWhile_cons, List.find?]
          | cons c3 rest' =>
            by_cases h3 : c3.isDigit <;>
              simp [scan34, firstRun34, digitRuns, h0, h1, h2, h3, List.takeWhile_cons,
                List.dropWhile_cons, List.find?]
        · have hs : scan34 (c0 :: c1 :: c2 :: rest) = scan34 (c1 :: c2 :: rest) := by
            simp [scan34, h2]
          rw [hs, scan34_eq_firstRun34 (c1 :: c2 :: rest)]
          simp [firstRun34, digitRuns, h0, h1, h2, List.takeWhile_cons,
            List.dropWhile_cons, List.find?]
      · have hs : scan34 (c0 :: c1 :: c2 :: rest) = scan34 (c1 :: c2 :: rest) := by
          simp [scan34, h1]
        rw [hs, scan34_eq_firstRun34 (c1 :: c2 :: rest)]
        simp [firstRun34, digitRuns, h0, h1, List.takeWhile_cons,
          List.dropWhile_cons, List.find?]
    · have hs : scan34 (c0 :: c1 :: c2 :: rest) = scan34 (c1 :: c2 :: rest) := by
        simp [scan34, h0]
      rw [hs, scan34_eq_firstRun34 (c1 :: c2 :: rest)]
      simp [firstRun34, digitRuns, h0]

/-- C10 (confirmed): `_parse_year` returns the integer value of the first
maximal run of at least three consecutive digits, clipped to its first four
digits (`12345` yields `1234`), and `None` exactly for absent/empty input or
input with no such run. -/
theorem C10_parse_year : ∀ s : String,
    parse_year (some s) = (firstRun34 s.data).map natOfDigits ∧
    parse_year none = none ∧
    parse_year (some "12345") = some 1234 ∧
    parse_year (some "ab12") = none ∧
    parse_year (some "") = none := by
  intro s
  refine ⟨?_, rfl, rfl, rfl, rfl⟩
  by_cases h : s = ""
  · subst h
    have h2 : firstRun34 ("" : String).data = none := by simp [firstRun34, digitRuns]
    simp [parse_year, h2]
  · simp only [parse_year, if_neg h]
    rw [scan34_eq_firstRun34]

/-! ## C4 — extent selection of the primary dimensions -/

/-- C4 counterexample: a record with a support height/width pair (width `0`)
and a frame height/width pair.  The support bucket holds `width ↦ 0`, yet
`primary_dimensions_cm` returns a `None` width: Python's `or` treats the
float `0.0` as falsy, so the claimed "returns the support values" fails. -/
theorem C4_counterexample :
    assocFind (buckets (all_dimensions zeroWidthRec)).1 "width" = some 0 ∧
    assocFind (buckets (all_dimensions zeroWidthRec)).1 "height" = some 10 ∧
    primary_dimensions_cm zeroWidthRec = (some 10, none, none) :=
  ⟨rfl, rfl, rfl⟩

/-- A frame-like measurement leaves the buckets unchanged. -/
theorem bucketsStep_skip (acc : List (String × Rat) × List (String × Rat)) (d : Meas)
    (h : skipExtents.contains (normExtent d) = true) : bucketsStep acc d = acc := by
  have h' : normExtent d ∈ skipExtents := by simpa [List.elem_eq_mem] using h
  rcases hc : to_cm d.value d.unit with _ | cm <;> simp [bucketsStep, hc, h']

/-- The grouping fold ignores frame-like measurements entirely. -/
theorem buckets_filter_aux :
    ∀ (dims : List Meas) (acc : List (String × Rat) × List (String × Rat)),
    dims.foldl bucketsStep acc =
      (dims.filter (fun d => !skipExtents.contains (normExtent d))).foldl bucketsStep acc := by
  intro dims
  induction dims with
  | nil => intro acc; rfl
  | cons d ds ih =>
    intro acc
    by_cases h : skipExtents.contains (normExtent d) = true
    · have h' : normExtent d ∈ skipExtents := by simpa [List.elem_eq_mem] using h
      have hp : (!skipExtents.contains (normExtent d)) = false := by
        simp [List.elem_eq_mem, h']
      simp only [List.foldl_cons, List.filter_cons, hp, Bool.false_eq_true, if_false]
      rw [bucketsStep_skip acc d h]
      exact ih acc
    · have h' : ¬(normExtent d ∈ skipExtents) := by simpa [List.elem_eq_mem] using h
      have hp : (!skipExtents.contains (normExtent d)) = true := by
        simp [List.elem_eq_mem, h']
      simp only [List.foldl_cons, List.filter_cons, hp, if_true]
      exact ih (bucketsStep acc d)

/-- C4 (corrected): frame-like extents are skipped entirely and the support
bucket is preferred when non-empty (else the no-extent bucket); the support
height and a non-zero support width are returned as such — but a support
width equal to `0` falls through Python's `or` chain to the Dutch-synonym
lookup (see the counterexample), so "returns the support values" holds only
for non-zero widths/depths. -/
theorem C4_extent_selection : ∀ el : XElem,
    (∀ h w : Rat,
      assocFind (buckets (all_dimensions el)).1 "height" = some h →
      assocFind (buckets (all_dimensions el)).1 "width" = some w →
      ¬(w = 0) →
      primary_dimensions_cm el =
        (some h, some w,
         pyOrQ (assocFind (buckets (all_dimensions el)).1 "depth")
           (assocFind (buckets (all_dimensions el)).1 "diepte"))) ∧
    ((buckets (all_dimensions el)).1 = [] →
      primary_dimensions_cm el =
        (assocFind (buckets (all_dimensions el)).2 "height",
         pyOrQ (assocFind (buckets (all_dimensions el)).2 "width")
           (assocFind (buckets (all_dimensions el)).2 "breedte"),
         pyOrQ (assocFind (buckets (all_dimensions el)).2 "depth")
           (assocFind (buckets (all_dimensions el)).2 "diepte"))) ∧
    (∀ dims : List Meas,
      buckets dims = buckets (dims.filter (fun d => !skipExtents.contains (normExtent d)))) := by
  intro el
  refine ⟨?_, ?_, ?_⟩
  · intro h w hh hw hw0
    have hdne : ¬(all_dimensions el = []) := by
      intro h0
      rw [h0] at hh
      simp [buckets, assocFind] at hh
    have hb : ¬((buckets (all_dimensions el)).1 = []) := by
      intro h0
      rw [h0] at hh
      simp [assocFind] at hh
    simp only [primary_dimensions_cm]
    rw [if_neg hdne, if_pos hb, hh, hw]
    simp [pyOrQ, hw0]
  · intro hb
    by_cases hd : all_dimensions el = []
    · have h2 : buckets (all_dimensions el) = ([], []) := by rw [hd]; rfl
      simp [primary_dimensions_cm, hd, h2, assocFind, pyOrQ]
    · simp only [primary_dimensions_cm]
      rw [if_neg hd, if_neg (not_not_intro hb)]
  · intro dims
    rw [buckets, buckets, buckets_filter_aux]

/-- Witness for C4 at the support-plus-frame record: the support values
(100 cm and 246 mm = 24.6 cm) are returned, never the frame's 120/90. -/
theorem C4_witness :
    assocFind (buckets (all_dimensions supportFrameRec)).1 "height" = some 100 ∧
    primary_dimensions_cm supportFrameRec = (some 100, some ((246 : Rat) / 10), none) := by
  have h := (C4_extent_selection supportFrameRec).1 100 ((246 : Rat) / 10) rfl rfl (by norm_num)
  exact ⟨rfl, by rw [h]; rfl⟩

/-! ## C8 — the creation-event memoization is observationally pure -/

/-- The memoized lookup returns exactly the cache-free search result and
preserves the record element and the cache invariant. -/
theorem find_creation_event_m_spec (s : LIDOState)
    (h : s.searched = true → s.creation_event = find_creation_event s.el) :
    (find_creation_event_m s).1 = find_creation_event s.el ∧
    (find_creation_event_m s).2.el = s.el ∧
    ((find_creation_event_m s).2.searched = true →
      (find_creation_event_m s).2.creation_event =
        find_creation_event (find_creation_event_m s).2.el) := by
  by_cases hs : s.searched = true
  · have he : find_creation_event_m s = (s.creation_event, s) := by
      simp [find_creation_event_m, hs]
    rw [he]
    exact ⟨h hs, rfl, fun hx => h hx⟩
  · have hs' : s.searched = false := by simpa using hs
    have he : find_creation_event_m s =
        (find_creation_event s.el,
         { s with creation_event := find_creation_event s.el, searched := true }) := by
      simp [find_creation_event_m, hs']
    rw [he]
    exact ⟨rfl, rfl, fun _ => rfl⟩

/-- Any call sequence against a cache state satisfying the invariant produces
exactly the cache-free results. -/
theorem runCalls_ok : ∀ (calls : List LIDOCall) (s : LIDOState),
    (s.searched = true → s.creation_event = find_creation_event s.el) →
    runCalls s calls = calls.map (pureCall s.el) := by
  intro calls
  induction calls with
  | nil => intro s _; rfl
  | cons c cs ih =>
    intro s h
    have hm := find_creation_event_m_spec s h
    have hout : (stepCall s c).1 = pureCall s.el c := by
      cases c <;> simp [stepCall, creator, date_range, materials, techniques, pureCall,
        creator_nocache, date_range_nocache, materials_nocache, techniques_nocache, hm.1]
    have hstate : (stepCall s c).2 = (find_creation_event_m s).2 := by
      cases c <;> rfl
    simp only [runCalls, List.map_cons]
    rw [hout, hstate, ih _ hm.2.2, hm.2.1]

/-- C8 (confirmed): against a fresh record state, every sequence of
`creator`/`date_range`/`materials`/`techniques` calls returns exactly what
the cache-free re-derivation returns — the memoization of
`_find_creation_event` is an unobservable optimization. -/
theorem C8_memoization : ∀ (el : XElem) (calls : List LIDOCall),
    runCalls (initState el) calls = calls.map (pureCall el) ∧
    (creator (initState el)).1 = creator_nocache el ∧
    (date_range (initState el)).1 = date_range_nocache el ∧
    (materials (initState el)).1 = materials_nocache el ∧
    (techniques (initState el)).1 = techniques_nocache el := by
  intro el calls
  refine ⟨?_, rfl, rfl, rfl, rfl⟩
  exact runCalls_ok calls (initState el) (by intro hx; simp [initState] at hx)
